import Mathlib

/-!
Verification of the query/filter layer of the Local Food Wastage Management
System (src/app.py): the data model, the dynamic WHERE-clause filter builder,
the analytical query catalog, the CRUD handlers with their derived fields,
and the read-memoization / write-invalidation contract.

Dates are modelled as integer day numbers (the julianday of the date at
midnight, up to a constant offset that cancels in every difference the code
takes).  The wall clock at an instant is a day number plus a fraction of a
day (seconds since midnight), since SQLite's julianday('now') and pandas'
Timestamp.today() are timestamps, not dates.
-/

namespace FoodWaste

/-- Row of the providers table (spec §6: Provider_ID PK, Name, Type, Address,
City, Contact). -/
structure Provider where
  providerId : Nat
  name : String
  ptype : String
  address : String
  city : String
  contact : String
deriving Repr, DecidableEq

/-- Row of the receivers table (Receiver_ID PK, Name, City). -/
structure Receiver where
  receiverId : Nat
  name : String
  city : String
deriving Repr, DecidableEq

/-- Row of the food_listings table.  `expiryDate` is the day number of the
stored calendar date; `daysToExpiry` and `quantityCategory` are the snapshot
columns filled in by the Add Food Listing handler. -/
structure FoodListing where
  foodId : Nat
  foodName : String
  quantity : Int
  expiryDate : Int
  providerId : Nat
  providerType : String
  location : String
  foodType : String
  mealType : String
  daysToExpiry : Int
  quantityCategory : String
deriving Repr, DecidableEq

/-- Row of the claims table (Claim_ID PK, Food_ID FK, Receiver_ID FK, Status). -/
structure Claim where
  claimId : Nat
  foodId : Nat
  receiverId : Nat
  status : String
deriving Repr, DecidableEq

/-- The relational store: the three core tables plus the receivers reference
table. -/
structure DB where
  providers : List Provider
  receivers : List Receiver
  listings : List FoodListing
  claims : List Claim
deriving Repr, DecidableEq

/-- A value bound positionally into a parameterized SQL statement: the
filter builder binds strings (cities, food types, meal types) and integers
(provider ids). -/
inductive SQLParam where
  | s (v : String)
  | i (v : Nat)
deriving Repr, DecidableEq

/-- Mirrors the Python expression `','.join('?' for _ in values)` from
src/app.py lines 161/167/170/173: `n` question marks separated by commas. -/
def placeholders : Nat → String
  | 0 => ""
  | 1 => "?"
  | n + 2 => placeholders (n + 1) ++ ",?"

/-- Number of `?` placeholders occurring in a SQL fragment. -/
def countQ (f : String) : Nat := f.toList.count '?'

/-- Name-to-id resolution for the provider filter, src/app.py line 165:
`provider_list[provider_list["Name"].isin(provider_filter_name)]["Provider_ID"].tolist()`.
`providerList` is the fetched (Provider_ID, Name) dataframe in its row order. -/
def provIdsFor (providerList : List (Nat × String)) (names : List String) : List Nat :=
  (providerList.filter (fun r => names.contains r.2)).map (fun r => r.1)

/-- City fragment of the dynamic WHERE builder, src/app.py lines 160-162. -/
def cityClause (cityFilter : List String) : List String × List SQLParam :=
  if cityFilter.isEmpty then ([], [])
  else (["Location IN (" ++ placeholders cityFilter.length ++ ")"],
        cityFilter.map SQLParam.s)

/-- Provider fragment, src/app.py lines 163-168: names are resolved to ids
first, and a fragment is emitted only when the resolved id list is nonempty. -/
def providerClause (providerFilterName : List String)
    (providerList : List (Nat × String)) : List String × List SQLParam :=
  if providerFilterName.isEmpty then ([], [])
  else
    if (provIdsFor providerList providerFilterName).isEmpty then ([], [])
    else (["Provider_ID IN ("
             ++ placeholders (provIdsFor providerList providerFilterName).length ++ ")"],
          (provIdsFor providerList providerFilterName).map SQLParam.i)

/-- Food-type fragment, src/app.py lines 169-171. -/
def foodTypeClause (foodTypeFilter : List String) : List String × List SQLParam :=
  if foodTypeFilter.isEmpty then ([], [])
  else (["Food_Type IN (" ++ placeholders foodTypeFilter.length ++ ")"],
        foodTypeFilter.map SQLParam.s)

/-- Meal-type fragment, src/app.py lines 172-174. -/
def mealTypeClause (mealTypeFilter : List String) : List String × List SQLParam :=
  if mealTypeFilter.isEmpty then ([], [])
  else (["Meal_Type IN (" ++ placeholders mealTypeFilter.length ++ ")"],
        mealTypeFilter.map SQLParam.s)

/-- The accumulated `where_clauses` and `params` of src/app.py lines 156-174:
the four dimensions contribute their fragments and bound values in the fixed
order city, provider, food type, meal type. -/
def buildFilter (cityFilter providerFilterName foodTypeFilter mealTypeFilter : List String)
    (providerList : List (Nat × String)) : List String × List SQLParam :=
  let c1 := cityClause cityFilter
  let c2 := providerClause providerFilterName providerList
  let c3 := foodTypeClause foodTypeFilter
  let c4 := mealTypeClause mealTypeFilter
  (c1.1 ++ c2.1 ++ c3.1 ++ c4.1, c1.2 ++ c2.2 ++ c3.2 ++ c4.2)

/-- The final predicate text, src/app.py line 176:
`WHERE = f"WHERE {' AND '.join(where_clauses)}" if where_clauses else ""`. -/
def renderWHERE (clauses : List String) : String :=
  if clauses.isEmpty then ""
  else "WHERE " ++ String.intercalate " AND " clauses

/-- SQLite semantics of the predicate built by `buildFilter` on one
food_listings row: each emitted `column IN (...)` fragment holds exactly when
the row's column value is among the bound values, fragments are conjoined,
and a dimension that emitted no fragment constrains nothing. -/
def rowPasses (cityFilter providerFilterName foodTypeFilter mealTypeFilter : List String)
    (providerList : List (Nat × String)) (f : FoodListing) : Bool :=
  (cityFilter.isEmpty || cityFilter.contains f.location) &&
  (providerFilterName.isEmpty || (provIdsFor providerList providerFilterName).isEmpty ||
    (provIdsFor providerList providerFilterName).contains f.providerId) &&
  (foodTypeFilter.isEmpty || foodTypeFilter.contains f.foodType) &&
  (mealTypeFilter.isEmpty || mealTypeFilter.contains f.mealType)

/-- ORDER BY Expiry_Date ascending as a relation (stored date strings are
ISO, so string order is day-number order). -/
def expLe (a b : FoodListing) : Prop := a.expiryDate ≤ b.expiryDate

instance : DecidableRel expLe :=
  fun a b => inferInstanceAs (Decidable (a.expiryDate ≤ b.expiryDate))

instance : IsTotal FoodListing expLe :=
  ⟨fun a b => Int.le_total a.expiryDate b.expiryDate⟩

instance : IsTrans FoodListing expLe :=
  ⟨fun _ _ _ h1 h2 => le_trans h1 h2⟩

/-- ORDER BY Expiry_Date ascending. -/
def sortByExpiry (l : List FoodListing) : List FoodListing :=
  l.insertionSort expLe

/-- The filtered base read of the dashboard, src/app.py line 207:
`SELECT * FROM food_listings {WHERE} ORDER BY Expiry_Date`. -/
def filteredBaseRead (db : DB)
    (cityFilter providerFilterName foodTypeFilter mealTypeFilter : List String)
    (providerList : List (Nat × String)) : List FoodListing :=
  sortByExpiry (db.listings.filter
    (rowPasses cityFilter providerFilterName foodTypeFilter mealTypeFilter providerList))

/-- The unfiltered base read: `SELECT * FROM food_listings ORDER BY Expiry_Date`. -/
def baseRead (db : DB) : List FoodListing := sortByExpiry db.listings

/-- Quantity bucketing of the Add Food Listing handler, src/app.py line 336:
`qty_cat = "Small" if qty < 5 else ("Medium" if qty <= 20 else "Large")`. -/
def qty_cat (qty : Int) : String :=
  if qty < 5 then "Small" else if qty ≤ 20 then "Medium" else "Large"

/-- A wall-clock instant: the current calendar day as a day number plus the
seconds elapsed since that day's midnight (0 ≤ sec < 86400 at real instants). -/
structure Clock where
  day : Int
  sec : Nat
deriving Repr, DecidableEq

/-- Days_To_Expiry computed by the Add Food Listing handler, src/app.py
line 335: `(pd.to_datetime(exp) - pd.Timestamp.today()).days`.
`pd.to_datetime(exp)` is midnight of the expiry date while
`pd.Timestamp.today()` is the current timestamp, and pandas' `Timedelta.days`
is the floor of the difference in days, hence the floored division of the
difference in seconds. -/
def days_to_exp (expDay : Int) (now : Clock) : Int :=
  Int.fdiv (expDay * 86400 - (now.day * 86400 + (now.sec : Int))) 86400

/-- SQLite connection settings that matter to write behavior: whether the
connection enforces declared FOREIGN KEY constraints (`PRAGMA foreign_keys`). -/
structure Conn where
  foreignKeysEnforced : Bool
deriving Repr, DecidableEq

/-- Connection set up by get_conn, src/app.py lines 25-31: it calls
`sqlite3.connect(DB_PATH, check_same_thread=False)` and sets a row factory,
and never issues `PRAGMA foreign_keys = ON`, so the connection keeps SQLite's
default of NOT enforcing foreign-key constraints. -/
def get_conn : Conn := { foreignKeysEnforced := false }

/-- Surrogate id assigned by the store to a new providers row. -/
def nextProviderId (db : DB) : Nat :=
  (db.providers.map (fun p => p.providerId)).foldr max 0 + 1

/-- Surrogate id assigned by the store to a new food_listings row. -/
def nextFoodId (db : DB) : Nat :=
  (db.listings.map (fun f => f.foodId)).foldr max 0 + 1

/-- Surrogate id assigned by the store to a new claims row. -/
def nextClaimId (db : DB) : Nat :=
  (db.claims.map (fun c => c.claimId)).foldr max 0 + 1

/-- Add Provider form handler, src/app.py lines 307-316: `if name and city:`
runs the INSERT, else `st.error("Name and City are required.")`.  Returns the
resulting store, whether a write was performed, and whether an error message
was reported. -/
def addProviderHandler (db : DB) (name ptype address city contact : String) :
    DB × Bool × Bool :=
  if name ≠ "" ∧ city ≠ "" then
    ({ db with providers := db.providers ++ [{
        providerId := nextProviderId db, name := name, ptype := ptype,
        address := address, city := city, contact := contact }] },
     true, false)
  else (db, false, true)

/-- Truthiness of the optional integer ids the handlers test with
`if provider_id and ...` / `if food_id and receiver_id`: Python treats both
`None` and `0` as falsy. -/
def truthyId : Option Nat → Bool
  | none => false
  | some n => n != 0

/-- The INSERT run by the Add Food Listing handler, src/app.py lines 337-341,
with the derived snapshot fields of lines 335-336. -/
def insertFoodListing (db : DB) (pid : Nat) (foodName : String) (qty : Int)
    (expDay : Int) (providerType location ftype mtype : String) (now : Clock) : DB :=
  { db with listings := db.listings ++ [{
      foodId := nextFoodId db, foodName := foodName, quantity := qty,
      expiryDate := expDay, providerId := pid, providerType := providerType,
      location := location, foodType := ftype, mealType := mtype,
      daysToExpiry := days_to_exp expDay now, quantityCategory := qty_cat qty }] }

/-- Add Food Listing form handler, src/app.py lines 333-345:
`if provider_id and food_name and location:` inserts, else reports an error. -/
def addFoodHandler (db : DB) (providerId : Option Nat) (foodName : String)
    (qty : Int) (expDay : Int) (providerType location ftype mtype : String)
    (now : Clock) : DB × Bool × Bool :=
  if truthyId providerId ∧ foodName ≠ "" ∧ location ≠ "" then
    (insertFoodListing db (providerId.getD 0) foodName qty expDay
       providerType location ftype mtype now, true, false)
  else (db, false, true)

/-- Add Claim form handler, src/app.py lines 366-373:
`if food_id and receiver_id:` inserts the claim, else reports an error. -/
def addClaimHandler (db : DB) (foodId receiverId : Option Nat) (status : String) :
    DB × Bool × Bool :=
  if truthyId foodId ∧ truthyId receiverId then
    ({ db with claims := db.claims ++ [{
        claimId := nextClaimId db, foodId := foodId.getD 0,
        receiverId := receiverId.getD 0, status := status }] },
     true, false)
  else (db, false, true)

/-- Update Provider Contact, src/app.py line 388:
`UPDATE providers SET Contact=? WHERE Provider_ID=?`. -/
def updateContact (db : DB) (pid : Nat) (contact : String) : DB :=
  { db with providers := db.providers.map (fun p =>
      if p.providerId = pid then { p with contact := contact } else p) }

/-- Update Food Quantity, src/app.py line 403:
`UPDATE food_listings SET Quantity=? WHERE Food_ID=?`. -/
def updateQuantity (db : DB) (fid : Nat) (qty : Int) : DB :=
  { db with listings := db.listings.map (fun f =>
      if f.foodId = fid then { f with quantity := qty } else f) }

/-- Update Claim Status, src/app.py line 424:
`UPDATE claims SET Status=? WHERE Claim_ID=?`. -/
def updateStatus (db : DB) (cid : Nat) (status : String) : DB :=
  { db with claims := db.claims.map (fun c =>
      if c.claimId = cid then { c with status := status } else c) }

/-- Behavior of `DELETE FROM providers WHERE Provider_ID=?` (src/app.py
line 443) on a given connection.  Modelled from the spec: the schema declares
`food_listings.Provider_ID` as a foreign key into providers (spec §6), and
SQLite raises a FOREIGN KEY constraint error on such a delete only when the
connection has enabled enforcement; otherwise the row is deleted regardless
of referencing listings. -/
def deleteProviderSQL (conn : Conn) (db : DB) (pid : Nat) : Except String DB :=
  if conn.foreignKeysEnforced ∧ db.listings.any (fun f => f.providerId = pid) then
    Except.error "FOREIGN KEY constraint failed"
  else
    Except.ok { db with providers := db.providers.filter (fun p => p.providerId ≠ pid) }

/-- Delete Provider handler, src/app.py lines 441-447: runs the DELETE on the
session connection inside try/except, showing success or the error text. -/
def deleteProviderHandler (db : DB) (pid : Nat) : DB × Bool × Bool :=
  match deleteProviderSQL get_conn db pid with
  | Except.ok db2 => (db2, true, false)
  | Except.error _ => (db, false, true)

/-- Delete Food Listing, src/app.py line 459:
`DELETE FROM food_listings WHERE Food_ID=?`. -/
def deleteFood (db : DB) (fid : Nat) : DB :=
  { db with listings := db.listings.filter (fun f => f.foodId ≠ fid) }

/-- Delete Claim, src/app.py line 473: `DELETE FROM claims WHERE Claim_ID=?`. -/
def deleteClaim (db : DB) (cid : Nat) : DB :=
  { db with claims := db.claims.filter (fun c => c.claimId ≠ cid) }

/-- Application state seen by the data access layer: the store plus the
`st.cache_data` memoization of fetch_df, keyed by the exact (sql, params)
pair.  `ρ` is the type of a memoized tabular result. -/
structure AppState (ρ : Type) where
  db : DB
  cache : List ((String × List SQLParam) × ρ)

/-- Memoization lookup by exact (sql, params) key. -/
def cacheLookup {ρ : Type} (cache : List ((String × List SQLParam) × ρ))
    (k : String × List SQLParam) : Option ρ :=
  (cache.find? (fun e => e.1 = k)).map (fun e => e.2)

/-- fetch_df, src/app.py lines 33-37: a read memoized by `@st.cache_data` —
a cache hit returns the stored result without touching the store, a miss
evaluates the query against the store (`evalQ` is the query semantics) and
memoizes the result. -/
def fetch {ρ : Type} (evalQ : String × List SQLParam → DB → ρ)
    (st : AppState ρ) (k : String × List SQLParam) : ρ × AppState ρ :=
  match cacheLookup st.cache k with
  | some v => (v, st)
  | none => (evalQ k st.db, { st with cache := st.cache ++ [(k, evalQ k st.db)] })

/-- The nine write operations the CRUD tab can perform (src/app.py
lines 293-477). -/
inductive WriteOp where
  | addProvider (name ptype address city contact : String)
  | addFood (providerId : Option Nat) (foodName : String) (qty : Int)
      (expDay : Int) (providerType location ftype mtype : String) (now : Clock)
  | addClaim (foodId receiverId : Option Nat) (status : String)
  | updContact (pid : Nat) (contact : String)
  | updQuantity (fid : Nat) (qty : Int)
  | updStatus (cid : Nat) (status : String)
  | delProvider (pid : Nat)
  | delFood (fid : Nat)
  | delClaim (cid : Nat)

/-- Effect of one write operation on the store, together with whether the
operation succeeded (validation passed and the statement raised no error). -/
def writeStep (op : WriteOp) (db : DB) : DB × Bool :=
  match op with
  | WriteOp.addProvider name ptype address city contact =>
      let r := addProviderHandler db name ptype address city contact
      (r.1, r.2.1)
  | WriteOp.addFood pid foodName qty expDay ptype location ftype mtype now =>
      let r := addFoodHandler db pid foodName qty expDay ptype location ftype mtype now
      (r.1, r.2.1)
  | WriteOp.addClaim fid rid status =>
      let r := addClaimHandler db fid rid status
      (r.1, r.2.1)
  | WriteOp.updContact pid contact => (updateContact db pid contact, true)
  | WriteOp.updQuantity fid qty => (updateQuantity db fid qty, true)
  | WriteOp.updStatus cid status => (updateStatus db cid status, true)
  | WriteOp.delProvider pid =>
      let r := deleteProviderHandler db pid
      (r.1, r.2.1)
  | WriteOp.delFood fid => (deleteFood db fid, true)
  | WriteOp.delClaim cid => (deleteClaim db cid, true)

/-- One CRUD interaction on the application state.  Every successful write
call site in src/app.py (lines 314, 343, 371, 390, 405, 426, 445, 461, 475)
executes `st.cache_data.clear()` right after the write; the failure paths
(validation else-branches and the except-branches) do not clear. -/
def applyWrite {ρ : Type} (op : WriteOp) (st : AppState ρ) : AppState ρ × Bool :=
  let r := writeStep op st.db
  if r.2 then ({ db := r.1, cache := [] }, true)
  else ({ st with db := r.1 }, false)

/-- Query 5 "Expiring soon (≤ N days)", src/app.py lines 68-73:
`WHERE julianday(Expiry_Date) - julianday('now') <= ?` then
`ORDER BY Expiry_Date ASC`.  julianday of a stored date string is the day
number of its midnight; julianday('now') is the current day number plus the
elapsed fraction of the day, so the comparison is on exact rationals. -/
def query5 (db : DB) (n : Int) (now : Clock) : List FoodListing :=
  sortByExpiry (db.listings.filter (fun f =>
    (f.expiryDate : Rat) - ((now.day : Rat) + (now.sec : Rat) / 86400) ≤ (n : Rat)))

/-- SQLite ROUND(x, 2): x to 2 decimal places, halves away from zero (all
rates here are nonnegative, so floor of x·100 + 1/2 over 100). -/
def round2 (x : Rat) : Rat := ((x * 100 + 1 / 2).floor : Rat) / 100

/-- Numerator of Query 10's rate for one provider group:
`SUM(CASE WHEN c.Status='Completed' THEN 1 ELSE 0 END)` over the
providers ⋈ food_listings ⟕ claims rows of that provider. -/
def completedClaims10 (db : DB) (pid : Nat) : Nat :=
  ((db.listings.filter (fun f => f.providerId = pid)).map (fun f =>
    (db.claims.filter (fun c => c.foodId = f.foodId ∧ c.status = "Completed")).length)).sum

/-- Denominator of Query 10's rate: `COUNT(DISTINCT f.Food_ID)` over the same
group. -/
def distinctListings10 (db : DB) (pid : Nat) : Nat :=
  (((db.listings.filter (fun f => f.providerId = pid)).map (fun f => f.foodId)).dedup).length

/-- Query 10's `ROUND(100.0 * SUM(...) / NULLIF(COUNT(DISTINCT f.Food_ID),0), 2)`:
NULL when the distinct-listing count is zero, else the rounded percentage. -/
def fulfillmentRate (db : DB) (pid : Nat) : Option Rat :=
  let d := distinctListings10 db pid
  if d = 0 then none
  else some (round2 (100 * (completedClaims10 db pid : Rat) / (d : Rat)))

/-- One output row of Query 10. -/
structure Q10Row where
  name : String
  rate : Option Rat
deriving Repr, DecidableEq

/-- SQLite `ORDER BY Fulfillment_Rate DESC` as a sort relation: NULL is
smaller than every value, so descending order puts NULL rates last. -/
def q10le (a b : Q10Row) : Bool :=
  match a.rate, b.rate with
  | none, none => true
  | none, some _ => false
  | some _, none => true
  | some x, some y => y ≤ x

/-- The descending-rate order of Query 10 as a relation. -/
def rateDesc (a b : Q10Row) : Prop := q10le a b = true

instance : DecidableRel rateDesc :=
  fun a b => inferInstanceAs (Decidable (q10le a b = true))

instance : IsTotal Q10Row rateDesc :=
  ⟨fun a b => by
    unfold rateDesc q10le
    rcases a.rate with _ | x <;> rcases b.rate with _ | y <;> simp
    exact le_total y x⟩

instance : IsTrans Q10Row rateDesc :=
  ⟨fun a b c h1 h2 => by
    obtain ⟨na, ra⟩ := a
    obtain ⟨nb, rb⟩ := b
    obtain ⟨nc, rc⟩ := c
    unfold rateDesc q10le at h1 h2 ⊢
    rcases ra with _ | x <;> rcases rb with _ | y <;>
      rcases rc with _ | z <;> simp_all
    exact le_trans (α := Rat) h2 h1⟩

/-- Query 10 "Claim fulfillment rate per provider (%)", src/app.py
lines 102-111: providers INNER JOIN food_listings (so only providers owning
at least one listing form a group) LEFT JOIN claims, grouped per provider,
ordered descending by rate. -/
def query10 (db : DB) : List Q10Row :=
  ((db.providers.filter (fun p => db.listings.any (fun f => f.providerId = p.providerId))).map
    (fun p => { name := p.name, rate := fulfillmentRate db p.providerId })).insertionSort rateDesc

/-- Query 14's `COUNT(c.Claim_ID)` for one provider group of the
providers ⟕ food_listings ⟕ claims join: the number of matched
(listing, claim) pairs, i.e. the total number of claims against the
provider's listings. -/
def claimCount14 (db : DB) (pid : Nat) : Nat :=
  ((db.listings.filter (fun f => f.providerId = pid)).map (fun f =>
    (db.claims.filter (fun c => c.foodId = f.foodId)).length)).sum

/-- ORDER BY p.Name on (Provider_ID, Name) result rows. -/
def nameLe (a b : Nat × String) : Prop := a.2 ≤ b.2

instance : DecidableRel nameLe :=
  fun a b => inferInstanceAs (Decidable (a.2 ≤ b.2))

instance : IsTotal (Nat × String) nameLe :=
  ⟨fun a b => le_total a.2 b.2⟩

instance : IsTrans (Nat × String) nameLe :=
  ⟨fun _ _ _ h1 h2 => le_trans h1 h2⟩

/-- Query 14 "Providers with zero claims", src/app.py lines 123-131:
providers LEFT JOIN food_listings LEFT JOIN claims, grouped per provider,
`HAVING COUNT(c.Claim_ID) = 0`, ordered by provider name. -/
def query14 (db : DB) : List (Nat × String) :=
  ((db.providers.filter (fun p => claimCount14 db p.providerId = 0)).map
    (fun p => (p.providerId, p.name))).insertionSort nameLe

/-! Concrete stores used to instantiate the theorems. -/

/-- The empty store. -/
def dbEmpty : DB := { providers := [], receivers := [], listings := [], claims := [] }

/-- A sample listing owned by provider 1. -/
def breadListing : FoodListing :=
  { foodId := 10, foodName := "Bread", quantity := 15, expiryDate := 20100,
    providerId := 1, providerType := "", location := "Springfield",
    foodType := "Vegetarian", mealType := "Breakfast",
    daysToExpiry := 5, quantityCategory := "Medium" }

/-- A store in which provider 1 owns one food listing. -/
def dbAcme : DB :=
  { providers := [{ providerId := 1, name := "Acme Grocers", ptype := "Grocery Store",
                    address := "12 Main St", city := "Springfield", contact := "555-0100" }],
    receivers := [],
    listings := [breadListing],
    claims := [] }

/-- A store with a provider owning a completed-claimed listing and a provider
owning no listings at all. -/
def dbZero : DB :=
  { providers := [{ providerId := 1, name := "P1", ptype := "", address := "",
                    city := "S", contact := "" },
                  { providerId := 2, name := "Zero", ptype := "", address := "",
                    city := "S", contact := "" }],
    receivers := [{ receiverId := 1, name := "R1", city := "S" }],
    listings := [breadListing],
    claims := [{ claimId := 100, foodId := 10, receiverId := 1, status := "Completed" }] }

/-- An application state (with Nat-valued results) holding a stale cached
count while the store has one provider. -/
def stStale : AppState Nat :=
  { db := dbAcme, cache := [(("SELECT COUNT(*) AS n FROM providers", []), 99)] }

/-! ## Helper lemmas -/

theorem days_to_exp_eq (expDay today : Int) (sec : Nat) (h : sec < 86400) :
    days_to_exp expDay { day := today, sec := sec }
      = expDay - today - (if sec = 0 then 0 else 1) := by
  show Int.fdiv (expDay * 86400 - (today * 86400 + (sec : Int))) 86400
      = expDay - today - (if sec = 0 then 0 else 1)
  rw [Int.fdiv_eq_ediv _ (by omega)]
  split_ifs <;> omega

theorem qty_cat_small_iff (q : Int) : qty_cat q = "Small" ↔ q < 5 := by
  unfold qty_cat
  split_ifs <;> simp_all

theorem qty_cat_medium_iff (q : Int) : qty_cat q = "Medium" ↔ 5 ≤ q ∧ q ≤ 20 := by
  unfold qty_cat
  split_ifs <;> simp_all

theorem qty_cat_large_iff (q : Int) : qty_cat q = "Large" ↔ 20 < q := by
  unfold qty_cat
  split_ifs <;> simp_all
  omega

/-! ## Claim theorems -/

/-- C4: Create Food Listing stores Quantity_Category "Small" exactly when the
quantity is below 5, "Medium" exactly when it is between 5 and 20 inclusive,
and "Large" exactly when it exceeds 20; quantity 3 gives Small, quantities
5, 10 and 20 give Medium, and 25 gives Large. -/
theorem c4_quantity_category (db : DB) (pid : Nat) (foodName : String) (qty : Int)
    (expDay : Int) (pt loc ft mt : String) (now : Clock) :
    (∃ l, (insertFoodListing db pid foodName qty expDay pt loc ft mt now).listings
        = db.listings ++ [l] ∧ l.quantityCategory = qty_cat qty) ∧
    (qty_cat qty = "Small" ↔ qty < 5) ∧
    (qty_cat qty = "Medium" ↔ 5 ≤ qty ∧ qty ≤ 20) ∧
    (qty_cat qty = "Large" ↔ 20 < qty) ∧
    qty_cat 3 = "Small" ∧ qty_cat 5 = "Medium" ∧ qty_cat 10 = "Medium" ∧
    qty_cat 20 = "Medium" ∧ qty_cat 25 = "Large" :=
  ⟨⟨_, rfl, rfl⟩, qty_cat_small_iff qty, qty_cat_medium_iff qty, qty_cat_large_iff qty,
   by decide, by decide, by decide, by decide, by decide⟩

/-- C8: Create Provider writes exactly when both name and city are nonempty;
with either field blank it reports an error and leaves the store untouched. -/
theorem c8_create_provider (db : DB) (name ptype address city contact : String) :
    (name ≠ "" ∧ city ≠ "" →
      addProviderHandler db name ptype address city contact
        = ({ db with providers := db.providers ++ [{
              providerId := nextProviderId db, name := name, ptype := ptype,
              address := address, city := city, contact := contact }] },
           true, false)) ∧
    ((name = "" ∨ city = "") →
      addProviderHandler db name ptype address city contact = (db, false, true)) := by
  constructor
  · intro h
    unfold addProviderHandler
    rw [if_pos h]
  · intro h
    unfold addProviderHandler
    rw [if_neg]
    tauto

/-- Witness instantiating `c8_create_provider`: a blank city is rejected with
an error and an unchanged store, and complete fields insert the provider. -/
theorem c8_create_provider_witness :
    addProviderHandler dbEmpty "Acme" "Grocery Store" "12 Main St" "" "555"
      = (dbEmpty, false, true) ∧
    addProviderHandler dbEmpty "Acme" "Grocery Store" "12 Main St" "Springfield" "555"
      = ({ dbEmpty with providers := [{
            providerId := nextProviderId dbEmpty, name := "Acme", ptype := "Grocery Store",
            address := "12 Main St", city := "Springfield", contact := "555" }] },
         true, false) :=
  ⟨(c8_create_provider dbEmpty "Acme" "Grocery Store" "12 Main St" "" "555").2
     (Or.inr rfl),
   (c8_create_provider dbEmpty "Acme" "Grocery Store" "12 Main St" "Springfield" "555").1
     ⟨by decide, by decide⟩⟩

/-- C2: in the store `dbAcme` provider 1 owns a listing, yet the Delete
Provider handler run on the app's connection succeeds: it removes the
provider row, shows success and reports no error — the claimed
referential-integrity failure never happens because get_conn leaves SQLite's
foreign-key enforcement at its default (off), contradicting the handler's own
warning and error-handling code. -/
theorem c2_delete_provider_not_rejected :
    (dbAcme.listings.any (fun f => f.providerId = 1)) = true ∧
    deleteProviderHandler dbAcme 1
      = ({ dbAcme with providers := [] }, true, false) ∧
    ({ dbAcme with providers := [] } : DB).listings = [breadListing] := by
  refine ⟨by decide, ?_, by decide⟩
  decide

/-- C6 counterexample: creating a listing whose expiry date equals the
creation date, one second after midnight, stores Days_To_Expiry = −1, not
the claimed calendar-day difference 0. -/
theorem c6_counterexample_same_day_is_minus_one :
    ((insertFoodListing dbEmpty 1 "Bread" 15 0 "" "Springfield" "Vegetarian" "Breakfast"
        { day := 0, sec := 1 }).listings.map (fun l => l.daysToExpiry)) = [-1] ∧
    (0 : Int) - 0 = 0 ∧ (-1 : Int) ≠ (0 : Int) := by
  refine ⟨?_, rfl, by decide⟩
  decide

/-- C6 amended: Create Food Listing stores
days_to_expiry = (expiry − creation date) when creation happens exactly at
midnight and (expiry − creation date) − 1 otherwise (the handler subtracts
the creation timestamp, not the creation date, and floors), is negative
whenever the expiry date is in the past, and the stored value is never
recomputed afterwards (a quantity update leaves every listing's
Days_To_Expiry unchanged). -/
theorem c6_days_to_expiry (db : DB) (pid : Nat) (fn : String) (qty : Int)
    (expDay today : Int) (sec : Nat) (pt loc ft mt : String)
    (h : sec < 86400) :
    (∃ l, (insertFoodListing db pid fn qty expDay pt loc ft mt
            { day := today, sec := sec }).listings = db.listings ++ [l] ∧
      l.daysToExpiry = expDay - today - (if sec = 0 then 0 else 1)) ∧
    (expDay < today → days_to_exp expDay { day := today, sec := sec } < 0) ∧
    (∀ fid q, ((updateQuantity db fid q).listings.map (fun f => f.daysToExpiry))
        = db.listings.map (fun f => f.daysToExpiry)) := by
  refine ⟨⟨_, rfl, days_to_exp_eq expDay today sec h⟩, ?_, ?_⟩
  · intro hlt
    rw [days_to_exp_eq expDay today sec h]
    split_ifs <;> omega
  · intro fid q
    unfold updateQuantity
    simp only [List.map_map]
    apply List.map_congr_left
    intro f _
    by_cases hfe : f.foodId = fid <;> simp [hfe]

/-- Witness instantiating `c6_days_to_expiry` at one hour past midnight of
day 0 with expiry day 10. -/
theorem c6_days_to_expiry_witness :
    (∃ l, (insertFoodListing dbEmpty 1 "Bread" 15 10 "" "Springfield" "Vegetarian"
            "Breakfast" { day := 0, sec := 3600 }).listings = dbEmpty.listings ++ [l] ∧
      l.daysToExpiry = 10 - 0 - (if (3600 : Nat) = 0 then 0 else 1)) ∧
    ((10 : Int) < 0 → days_to_exp 10 { day := 0, sec := 3600 } < 0) ∧
    (∀ fid q, ((updateQuantity dbEmpty fid q).listings.map (fun f => f.daysToExpiry))
        = dbEmpty.listings.map (fun f => f.daysToExpiry)) :=
  c6_days_to_expiry dbEmpty 1 "Bread" 15 10 0 3600 "" "Springfield" "Vegetarian"
    "Breakfast" (by decide)

/-- C9: every successful write leaves the memoization cache empty, so any
subsequent read of any query key — whatever the query semantics — evaluates
against the post-write store instead of returning a cached result. -/
theorem c9_write_clears_cache {ρ : Type} (op : WriteOp) (st st2 : AppState ρ)
    (h : applyWrite op st = (st2, true)) :
    st2.cache = [] ∧
    ∀ (evalQ : String × List SQLParam → DB → ρ) (k : String × List SQLParam),
      (fetch evalQ st2 k).1 = evalQ k st2.db := by
  have h2 : (if (writeStep op st.db).2 = true
      then (({ db := (writeStep op st.db).1, cache := [] } : AppState ρ), true)
      else ({ db := (writeStep op st.db).1, cache := st.cache }, false)) = (st2, true) := h
  have hc : st2.cache = [] := by
    by_cases hb : (writeStep op st.db).2 = true
    · rw [if_pos hb, Prod.mk.injEq] at h2
      rw [← h2.1]
    · rw [if_neg hb, Prod.mk.injEq] at h2
      exact absurd h2.2 (by simp)
  refine ⟨hc, ?_⟩
  intro evalQ k
  simp [fetch, cacheLookup, hc]

/-- Witness instantiating `c9_write_clears_cache`: after updating provider
1's contact in a state holding a stale cached count, the cache is empty and
a provider-count read evaluates against the updated store. -/
theorem c9_write_clears_cache_witness :
    (applyWrite (WriteOp.updContact 1 "555-0199") stStale).1.cache = [] ∧
    ∀ (evalQ : String × List SQLParam → DB → Nat) (k : String × List SQLParam),
      (fetch evalQ (applyWrite (WriteOp.updContact 1 "555-0199") stStale).1 k).1
        = evalQ k (applyWrite (WriteOp.updContact 1 "555-0199") stStale).1.db :=
  c9_write_clears_cache (WriteOp.updContact 1 "555-0199") stStale
    (applyWrite (WriteOp.updContact 1 "555-0199") stStale).1 rfl

theorem frac_window (e t n : Int) (sec : Nat) (h : sec < 86400) :
    ((e : Rat) - ((t : Rat) + (sec : Rat) / 86400) ≤ (n : Rat)) ↔ e - t ≤ n := by
  constructor
  · intro hle
    by_contra hgt
    push_neg at hgt
    have h1 : (n : Rat) + 1 ≤ (e : Rat) - (t : Rat) := by
      have : n + 1 ≤ e - t := by omega
      exact_mod_cast this
    have h2 : (sec : Rat) / 86400 < 1 := by
      rw [div_lt_one (by norm_num)]
      exact_mod_cast h
    linarith
  · intro hle
    have h1 : (e : Rat) - (t : Rat) ≤ (n : Rat) := by exact_mod_cast hle
    have h2 : 0 ≤ (sec : Rat) / 86400 := by positivity
    linarith

/-- C7: Query 5 with threshold N returns exactly the listings whose calendar
day difference (expiry date − current date) is at most N, ordered by expiry
date ascending — even though the SQL compares the fractional julianday
difference, with an integer threshold and an integer day difference the
comparison is equivalent to the calendar-date one uniformly, with no
boundary off-by-one at any time of day. -/
theorem c7_query5_window (db : DB) (n today : Int) (sec : Nat) (h : sec < 86400) :
    (∀ f, f ∈ query5 db n { day := today, sec := sec } ↔
      f ∈ db.listings ∧ f.expiryDate - today ≤ n) ∧
    List.Sorted expLe (query5 db n { day := today, sec := sec }) := by
  constructor
  · intro f
    unfold query5 sortByExpiry
    rw [List.mem_insertionSort, List.mem_filter]
    simp only [decide_eq_true_eq]
    exact and_congr_right fun _ => frac_window f.expiryDate today n sec h
  · exact List.sorted_insertionSort expLe _

/-- Witness instantiating `c7_query5_window` at 01:00 of day 20095: the
sample listing expiring on day 20100 is within a 5-day window and appears. -/
theorem c7_query5_window_witness :
    breadListing ∈ query5 dbAcme 5 { day := 20095, sec := 3600 } :=
  ((c7_query5_window dbAcme 5 20095 3600 (by decide)).1 breadListing).mpr
    ⟨by decide, by decide⟩

theorem claimCount14_eq_zero (db : DB) (pid : Nat) :
    claimCount14 db pid = 0 ↔
      ∀ f ∈ db.listings, f.providerId = pid → ∀ c ∈ db.claims, c.foodId ≠ f.foodId := by
  unfold claimCount14
  rw [List.sum_eq_zero_iff]
  constructor
  · intro h f hf hpid c hc hfc
    have hm : (db.claims.filter (fun c2 => c2.foodId = f.foodId)).length
        ∈ (db.listings.filter (fun f2 => f2.providerId = pid)).map (fun f2 =>
            (db.claims.filter (fun c2 => c2.foodId = f2.foodId)).length) :=
      List.mem_map.mpr ⟨f, List.mem_filter.mpr ⟨hf, by simp [hpid]⟩, rfl⟩
    have hz := h _ hm
    rw [List.length_eq_zero] at hz
    have hcm : c ∈ db.claims.filter (fun c2 => c2.foodId = f.foodId) :=
      List.mem_filter.mpr ⟨hc, by simp [hfc]⟩
    rw [hz] at hcm
    exact absurd hcm (List.not_mem_nil c)
  · intro h x hx
    obtain ⟨f, hf, rfl⟩ := List.mem_map.mp hx
    obtain ⟨hf1, hf2⟩ := List.mem_filter.mp hf
    rw [List.length_eq_zero, List.filter_eq_nil_iff]
    intro c hc
    simp only [decide_eq_true_eq]
    exact h f hf1 (by simpa using hf2) c hc

/-- C5: Query 14 returns exactly the providers with no claim against any of
their listings — a provider appears if and only if no claim references one
of its listings (in particular every provider owning no listings at all
appears, and no provider with a claimed listing appears) — and the output is
ordered by provider name. -/
theorem c5_query14_zero_claims (db : DB) :
    (∀ p ∈ db.providers,
      ((p.providerId, p.name) ∈ query14 db ↔
        ∀ f ∈ db.listings, f.providerId = p.providerId →
          ∀ c ∈ db.claims, c.foodId ≠ f.foodId)) ∧
    (∀ p ∈ db.providers, (∀ f ∈ db.listings, f.providerId ≠ p.providerId) →
        (p.providerId, p.name) ∈ query14 db) ∧
    (∀ pr ∈ query14 db, ∃ p ∈ db.providers,
        pr = (p.providerId, p.name) ∧
        ∀ f ∈ db.listings, f.providerId = p.providerId →
          ∀ c ∈ db.claims, c.foodId ≠ f.foodId) ∧
    List.Sorted nameLe (query14 db) := by
  have hmem : ∀ p ∈ db.providers, claimCount14 db p.providerId = 0 →
      (p.providerId, p.name) ∈ query14 db := by
    intro p hp hz
    unfold query14
    rw [List.mem_insertionSort]
    exact List.mem_map.mpr ⟨p, List.mem_filter.mpr ⟨hp, by simp [hz]⟩, rfl⟩
  refine ⟨?_, ?_, ?_, List.sorted_insertionSort nameLe _⟩
  · intro p hp
    constructor
    · intro hmem2
      unfold query14 at hmem2
      rw [List.mem_insertionSort] at hmem2
      obtain ⟨q, hq, hqe⟩ := List.mem_map.mp hmem2
      obtain ⟨hq1, hq2⟩ := List.mem_filter.mp hq
      have hzq : claimCount14 db q.providerId = 0 := by simpa using hq2
      have hid : q.providerId = p.providerId := congrArg Prod.fst hqe
      rw [hid] at hzq
      exact (claimCount14_eq_zero db p.providerId).mp hzq
    · intro hcond
      exact hmem p hp ((claimCount14_eq_zero db p.providerId).mpr hcond)
  · intro p hp hnull
    refine hmem p hp ((claimCount14_eq_zero db p.providerId).mpr ?_)
    intro f hf hpid
    exact absurd hpid (hnull f hf)
  · intro pr hpr
    unfold query14 at hpr
    rw [List.mem_insertionSort] at hpr
    obtain ⟨q, hq, hqe⟩ := List.mem_map.mp hpr
    obtain ⟨hq1, hq2⟩ := List.mem_filter.mp hq
    exact ⟨q, hq1, hqe.symm,
      (claimCount14_eq_zero db q.providerId).mp (by simpa using hq2)⟩

/-- Witness instantiating `c5_query14_zero_claims` on `dbZero`: provider 2
owns no listings and appears in Query 14's output, while provider 1, whose
listing carries a claim, does not. -/
theorem c5_query14_zero_claims_witness :
    (2, "Zero") ∈ query14 dbZero ∧ (1, "P1") ∉ query14 dbZero := by
  constructor
  · exact (c5_query14_zero_claims dbZero).2.1
      { providerId := 2, name := "Zero", ptype := "", address := "", city := "S", contact := "" }
      (by decide) (by decide)
  · intro hmem
    have h1 := ((c5_query14_zero_claims dbZero).1
      { providerId := 1, name := "P1", ptype := "", address := "", city := "S", contact := "" }
      (by decide)).mp hmem
    have h2 := h1 breadListing (by decide) (by decide)
      { claimId := 100, foodId := 10, receiverId := 1, status := "Completed" } (by decide)
    exact h2 (by decide)

theorem distinctListings10_ne_zero (db : DB) (pid : Nat)
    (hf : ∃ f ∈ db.listings, f.providerId = pid) : distinctListings10 db pid ≠ 0 := by
  obtain ⟨f, hf1, hf2⟩ := hf
  unfold distinctListings10
  intro hzero
  rw [List.length_eq_zero, List.dedup_eq_nil, List.map_eq_nil_iff] at hzero
  have hm : f ∈ db.listings.filter (fun f2 => f2.providerId = pid) :=
    List.mem_filter.mpr ⟨hf1, by simp [hf2]⟩
  rw [hzero] at hm
  exact absurd hm (List.not_mem_nil f)

/-- C3 counterexample: in `dbZero` the provider named "Zero" owns no
listings, and Query 10's output contains no row at all for it — not a row
carrying a null rate as claimed; the full output is the single row for P1. -/
theorem c3_counterexample_zero_listing_provider_absent :
    (∃ p ∈ dbZero.providers, p.name = "Zero" ∧
        ∀ f ∈ dbZero.listings, f.providerId ≠ p.providerId) ∧
    (∀ row ∈ query10 dbZero, row.name ≠ "Zero") ∧
    (query10 dbZero).map (fun row => row.name) = ["P1"] := by decide

/-- C3 amended: Query 10 returns one row per provider owning at least one
listing, whose rate is 100 × (completed claims on its listings) divided by
its distinct listing count and rounded to 2 decimals — never null and never
a division error, since the inner join guarantees a nonzero denominator —
ordered descending by rate; providers owning zero listings are excluded from
the output entirely instead of appearing with a null rate. -/
theorem c3_query10_rate (db : DB) :
    (∀ row ∈ query10 db, ∃ p ∈ db.providers,
        (∃ f ∈ db.listings, f.providerId = p.providerId) ∧
        row = { name := p.name,
                rate := some (round2 (100 * (completedClaims10 db p.providerId : Rat) /
                        (distinctListings10 db p.providerId : Rat))) }) ∧
    (∀ p ∈ db.providers, (∃ f ∈ db.listings, f.providerId = p.providerId) →
        ({ name := p.name, rate := fulfillmentRate db p.providerId } : Q10Row) ∈ query10 db) ∧
    (query10 db).length
      = (db.providers.filter (fun p =>
          db.listings.any (fun f => f.providerId = p.providerId))).length ∧
    List.Sorted rateDesc (query10 db) := by
  refine ⟨?_, ?_, ?_, List.sorted_insertionSort rateDesc _⟩
  · intro row hrow
    unfold query10 at hrow
    rw [List.mem_insertionSort] at hrow
    obtain ⟨p, hp, hpe⟩ := List.mem_map.mp hrow
    obtain ⟨hp1, hp2⟩ := List.mem_filter.mp hp
    have hex : ∃ f ∈ db.listings, f.providerId = p.providerId := by
      simpa using hp2
    refine ⟨p, hp1, hex, ?_⟩
    rw [← hpe]
    unfold fulfillmentRate
    rw [if_neg (distinctListings10_ne_zero db p.providerId hex)]
  · intro p hp hex
    unfold query10
    rw [List.mem_insertionSort]
    refine List.mem_map.mpr ⟨p, List.mem_filter.mpr ⟨hp, ?_⟩, rfl⟩
    simpa using hex
  · unfold query10
    rw [(List.perm_insertionSort rateDesc _).length_eq, List.length_map]

/-- Witness instantiating `c3_query10_rate` on `dbZero`: provider 1 owns a
listing, so its rate row is in Query 10's output. -/
theorem c3_query10_rate_witness :
    ({ name := "P1", rate := fulfillmentRate dbZero 1 } : Q10Row) ∈ query10 dbZero :=
  (c3_query10_rate dbZero).2.1
    { providerId := 1, name := "P1", ptype := "", address := "", city := "S", contact := "" }
    (by decide) ⟨breadListing, by decide, by decide⟩

theorem countQ_append (a b : String) : countQ (a ++ b) = countQ a + countQ b := by
  unfold countQ
  simp [String.toList, List.count_append]

theorem countQ_placeholders : ∀ n : Nat, countQ (placeholders n) = n
  | 0 => by decide
  | 1 => by decide
  | n + 2 => by
      have ih := countQ_placeholders (n + 1)
      have h2 : countQ ",?" = 1 := by decide
      show countQ (placeholders (n + 1) ++ ",?") = n + 2
      rw [countQ_append, ih, h2]

theorem provIdsFor_nil (pl : List (Nat × String)) : provIdsFor pl [] = [] := by
  unfold provIdsFor
  simp

theorem buildFilter_eq (cityF provF ftF mtF : List String) (pl : List (Nat × String)) :
    buildFilter cityF provF ftF mtF pl
      = ((cityClause cityF).1 ++ (providerClause provF pl).1
           ++ (foodTypeClause ftF).1 ++ (mealTypeClause mtF).1,
         (cityClause cityF).2 ++ (providerClause provF pl).2
           ++ (foodTypeClause ftF).2 ++ (mealTypeClause mtF).2) := rfl

theorem cityClause_params (cityF : List String) :
    (cityClause cityF).2 = cityF.map SQLParam.s := by
  unfold cityClause
  split_ifs with h
  · simp_all
  · rfl

theorem providerClause_params (provF : List String) (pl : List (Nat × String)) :
    (providerClause provF pl).2 = (provIdsFor pl provF).map SQLParam.i := by
  unfold providerClause
  split_ifs with h1 h2
  · rw [List.isEmpty_iff] at h1
    rw [h1, provIdsFor_nil]
    rfl
  · rw [List.isEmpty_iff] at h2
    rw [h2]
    rfl
  · rfl

theorem foodTypeClause_params (ftF : List String) :
    (foodTypeClause ftF).2 = ftF.map SQLParam.s := by
  unfold foodTypeClause
  split_ifs with h
  · simp_all
  · rfl

theorem mealTypeClause_params (mtF : List String) :
    (mealTypeClause mtF).2 = mtF.map SQLParam.s := by
  unfold mealTypeClause
  split_ifs with h
  · simp_all
  · rfl

theorem rowPasses_nil (pl : List (Nat × String)) (f : FoodListing) :
    rowPasses [] [] [] [] pl f = true := rfl

/-- C1 counterexample: with two providers both named "A" on the list, the
single selected provider-dimension value "A" yields a fragment with TWO
placeholders, and the selected value itself is not among the bound
parameters (the resolved ids are) — so the claim's "exactly one placeholder
per selected value whose values appear in the parameter list" fails for the
provider dimension. -/
theorem c1_counterexample_provider_dimension :
    buildFilter [] ["A"] [] [] [(1, "A"), (2, "A")]
      = (["Provider_ID IN (?,?)"], [SQLParam.i 1, SQLParam.i 2]) ∧
    countQ "Provider_ID IN (?,?)" = 2 ∧
    (["A"] : List String).length = 1 ∧
    SQLParam.s "A" ∉ (buildFilter [] ["A"] [] [] [(1, "A"), (2, "A")]).2 := by decide

/-- C1 amended: with every dimension empty the builder yields an empty
predicate and empty parameters and the filtered base read equals the
unfiltered one; a nonempty city / food-type / meal-type selection emits a
`column IN (?,...)` fragment with exactly one placeholder per selected
value; a nonempty provider selection is first resolved to provider ids and
emits its fragment with exactly one placeholder per resolved id (none when
no id resolves); the bound parameters are exactly the city values, resolved
provider ids, food types and meal types in fragment order (never
interpolated into the text); fragments are joined with AND; and the
predicate text is either empty or begins with "WHERE". -/
theorem c1_filter_predicate (cityF provF ftF mtF : List String)
    (pl : List (Nat × String)) (db : DB) :
    ((cityF = [] ∧ provF = [] ∧ ftF = [] ∧ mtF = []) →
      buildFilter cityF provF ftF mtF pl = ([], []) ∧
      renderWHERE (buildFilter cityF provF ftF mtF pl).1 = "" ∧
      filteredBaseRead db cityF provF ftF mtF pl = baseRead db) ∧
    (cityF ≠ [] →
      "Location IN (" ++ placeholders cityF.length ++ ")"
        ∈ (buildFilter cityF provF ftF mtF pl).1 ∧
      countQ ("Location IN (" ++ placeholders cityF.length ++ ")") = cityF.length) ∧
    (ftF ≠ [] →
      "Food_Type IN (" ++ placeholders ftF.length ++ ")"
        ∈ (buildFilter cityF provF ftF mtF pl).1 ∧
      countQ ("Food_Type IN (" ++ placeholders ftF.length ++ ")") = ftF.length) ∧
    (mtF ≠ [] →
      "Meal_Type IN (" ++ placeholders mtF.length ++ ")"
        ∈ (buildFilter cityF provF ftF mtF pl).1 ∧
      countQ ("Meal_Type IN (" ++ placeholders mtF.length ++ ")") = mtF.length) ∧
    (provF ≠ [] → provIdsFor pl provF ≠ [] →
      "Provider_ID IN (" ++ placeholders (provIdsFor pl provF).length ++ ")"
        ∈ (buildFilter cityF provF ftF mtF pl).1 ∧
      countQ ("Provider_ID IN (" ++ placeholders (provIdsFor pl provF).length ++ ")")
        = (provIdsFor pl provF).length) ∧
    (buildFilter cityF provF ftF mtF pl).2
      = cityF.map SQLParam.s ++ (provIdsFor pl provF).map SQLParam.i
        ++ ftF.map SQLParam.s ++ mtF.map SQLParam.s ∧
    ((buildFilter cityF provF ftF mtF pl).1 ≠ [] →
      renderWHERE (buildFilter cityF provF ftF mtF pl).1
        = "WHERE " ++ String.intercalate " AND " (buildFilter cityF provF ftF mtF pl).1) ∧
    (renderWHERE (buildFilter cityF provF ftF mtF pl).1 = "" ∨
      ∃ rest, renderWHERE (buildFilter cityF provF ftF mtF pl).1 = "WHERE " ++ rest) := by
  have e1 : countQ "Location IN (" = 0 := by decide
  have e2 : countQ "Food_Type IN (" = 0 := by decide
  have e3 : countQ "Meal_Type IN (" = 0 := by decide
  have e4 : countQ "Provider_ID IN (" = 0 := by decide
  have e5 : countQ ")" = 0 := by decide
  refine ⟨?_, ?_, ?_, ?_, ?_, ?_, ?_, ?_⟩
  · rintro ⟨rfl, rfl, rfl, rfl⟩
    refine ⟨rfl, rfl, ?_⟩
    unfold filteredBaseRead baseRead
    rw [List.filter_eq_self.mpr (fun a _ => rowPasses_nil pl a)]
  · intro h
    constructor
    · rw [buildFilter_eq]
      apply List.mem_append.mpr
      apply Or.inl
      apply List.mem_append.mpr
      apply Or.inl
      apply List.mem_append.mpr
      apply Or.inl
      unfold cityClause
      rw [if_neg (by simp_all)]
      exact List.mem_singleton.mpr rfl
    · rw [countQ_append, countQ_append, countQ_placeholders, e1, e5]
      omega
  · intro h
    constructor
    · rw [buildFilter_eq]
      apply List.mem_append.mpr
      apply Or.inl
      apply List.mem_append.mpr
      apply Or.inr
      unfold foodTypeClause
      rw [if_neg (by simp_all)]
      exact List.mem_singleton.mpr rfl
    · rw [countQ_append, countQ_append, countQ_placeholders, e2, e5]
      omega
  · intro h
    constructor
    · rw [buildFilter_eq]
      apply List.mem_append.mpr
      apply Or.inr
      unfold mealTypeClause
      rw [if_neg (by simp_all)]
      exact List.mem_singleton.mpr rfl
    · rw [countQ_append, countQ_append, countQ_placeholders, e3, e5]
      omega
  · intro h1 h2
    constructor
    · rw [buildFilter_eq]
      apply List.mem_append.mpr
      apply Or.inl
      apply List.mem_append.mpr
      apply Or.inl
      apply List.mem_append.mpr
      apply Or.inr
      unfold providerClause
      rw [if_neg (by simp_all), if_neg (by simp_all)]
      exact List.mem_singleton.mpr rfl
    · rw [countQ_append, countQ_append, countQ_placeholders, e4, e5]
      omega
  · rw [buildFilter_eq]
    rw [cityClause_params, providerClause_params, foodTypeClause_params, mealTypeClause_params]
  · intro h
    unfold renderWHERE
    rw [if_neg (by simp_all)]
  · by_cases h : (buildFilter cityF provF ftF mtF pl).1 = []
    · exact Or.inl (by unfold renderWHERE ; rw [if_pos (by simp_all)])
    · refine Or.inr ⟨String.intercalate " AND " (buildFilter cityF provF ftF mtF pl).1, ?_⟩
      unfold renderWHERE
      rw [if_neg (by simp_all)]

/-- Witness instantiating `c1_filter_predicate`: no selection yields the
empty predicate and the unfiltered base read, and a one-city selection
yields a one-placeholder Location fragment. -/
theorem c1_filter_predicate_witness :
    (buildFilter [] [] [] [] [] = ([], []) ∧
      renderWHERE (buildFilter [] [] [] [] []).1 = "" ∧
      filteredBaseRead dbAcme [] [] [] [] [] = baseRead dbAcme) ∧
    ("Location IN (" ++ placeholders (["Springfield"] : List String).length ++ ")"
        ∈ (buildFilter ["Springfield"] [] [] [] []).1 ∧
      countQ ("Location IN (" ++ placeholders (["Springfield"] : List String).length ++ ")")
        = (["Springfield"] : List String).length) :=
  ⟨(c1_filter_predicate [] [] [] [] [] dbAcme).1 ⟨rfl, rfl, rfl, rfl⟩,
   (c1_filter_predicate ["Springfield"] [] [] [] [] dbAcme).2.1 (by decide)⟩

/-- C10: when the selected provider names resolve to no provider identity,
the provider dimension contributes no fragment and no parameters (not an
empty IN list and not an error), every listing passes the provider filter,
and the filtered base read is the one obtained with no provider filter at
all. -/
theorem c10_unresolved_provider_names (cityF provF ftF mtF : List String)
    (pl : List (Nat × String)) (db : DB)
    (hne : provF ≠ []) (hres : provIdsFor pl provF = []) :
    providerClause provF pl = ([], []) ∧
    buildFilter cityF provF ftF mtF pl = buildFilter cityF [] ftF mtF pl ∧
    (∀ f, rowPasses cityF provF ftF mtF pl f = rowPasses cityF [] ftF mtF pl f) ∧
    filteredBaseRead db cityF provF ftF mtF pl
      = filteredBaseRead db cityF [] ftF mtF pl := by
  have hpc : providerClause provF pl = ([], []) := by
    unfold providerClause
    rw [if_neg (by simp_all), if_pos (by simp_all)]
  have hpc0 : providerClause [] pl = ([], []) := rfl
  have hrp : ∀ f, rowPasses cityF provF ftF mtF pl f = rowPasses cityF [] ftF mtF pl f := by
    intro f
    unfold rowPasses
    rw [hres]
    simp
  refine ⟨hpc, ?_, hrp, ?_⟩
  · rw [buildFilter_eq, buildFilter_eq, hpc, hpc0]
  · unfold filteredBaseRead
    rw [List.filter_congr (fun a _ => hrp a)]

/-- Witness instantiating `c10_unresolved_provider_names`: the selected name
"Ghost" matches no provider, so the build with it equals the build without a
provider filter. -/
theorem c10_unresolved_provider_names_witness :
    providerClause ["Ghost"] [(1, "A")] = ([], []) ∧
    buildFilter ["Springfield"] ["Ghost"] [] [] [(1, "A")]
      = buildFilter ["Springfield"] [] [] [] [(1, "A")] ∧
    (∀ f, rowPasses ["Springfield"] ["Ghost"] [] [] [(1, "A")] f
        = rowPasses ["Springfield"] [] [] [] [(1, "A")] f) ∧
    filteredBaseRead dbAcme ["Springfield"] ["Ghost"] [] [] [(1, "A")]
      = filteredBaseRead dbAcme ["Springfield"] [] [] [] [(1, "A")] :=
  c10_unresolved_provider_names ["Springfield"] ["Ghost"] [] [] [(1, "A")] dbAcme
    (by decide) (by decide)

end FoodWaste
